import Mathlib

/-!
# Verification of the HELD_POC GC9A01 display driver

Shallow embedding of `src/lib/gc9a01/gc9a01_driver.c` and
`src/lib/lcd_hal/lcd_hal.c`.

The driver is a straight-line C program whose only observable behaviour is
the sequence of calls it makes into the hardware-abstraction layer:
`LCD_HAL_DigitalWrite` (drive a control line), `LCD_HAL_SPI_WriteByte`
(emit one byte on the serial bus), and the delay primitives.  We embed each
driver function as a pure function producing the list of these calls, in
program order, as an event trace.  The busy-wait loop that `GC9A01_FillRect`
runs on `SPI1->STATR` before releasing chip-select (lines 543-544 of the
driver) is recorded as the dedicated event `Ev.waitSpiIdle`.

Machine integers: the driver manipulates `uint8_t`/`uint16_t` values; the
embedding uses `Nat` with explicit `% 256` / `% 65536` exactly where the C
performs a truncation (`& 0xFF`) or a wrapping subtraction.

The transport layer's `LCD_HAL_SPI_WriteByte` additionally contains two
bounded busy-wait loops polling the SPI status register; those are embedded
separately, down at the register level, as functions of the stream of
values successive reads of `SPI1->STATR` return.
-/

set_option autoImplicit false

/-- `LCD_WIDTH` from `include/lcd_config.h`. -/
def LCD_WIDTH : Nat := 240

/-- `LCD_HEIGHT` from `include/lcd_config.h`. -/
def LCD_HEIGHT : Nat := 240

/-- The four control lines the driver drives through `LCD_HAL_DigitalWrite`
(`LCD_RST_PIN`, `LCD_DC_PIN`, `LCD_CS_PIN`, `LCD_BL_PIN` in
`include/lcd_config.h`). -/
inductive Pin
  | RST
  | DC
  | CS
  | BL
  deriving DecidableEq, Repr

/-- One observable action of the driver: a call into the HAL, or the
direct `SPI1->STATR` busy-wait at the end of `GC9A01_FillRect`. -/
inductive Ev
  | gpio (p : Pin) (v : Nat)
  | spi (b : Nat)
  | delayMs (n : Nat)
  | delayUs (n : Nat)
  | waitSpiIdle
  deriving DecidableEq, Repr

/-- The SPI bytes of a trace, in order (payload of every `Ev.spi`). -/
def spiBytes : List Ev → List Nat
  | [] => []
  | Ev.spi b :: rest => b :: spiBytes rest
  | _ :: rest => spiBytes rest

/-- `GC9A01_SendCommand` (driver lines 36-46): CS low, settle, DC low
(command mode), settle, write the byte, settle.  CS deliberately stays
low. -/
def GC9A01_SendCommand (cmd : Nat) : List Ev :=
  [Ev.gpio Pin.CS 0, Ev.delayUs 1, Ev.gpio Pin.DC 0, Ev.delayUs 1,
   Ev.spi cmd, Ev.delayUs 1]

/-- `GC9A01_SendData` (driver lines 57-66): DC high (data mode), settle,
write the byte, settle, CS high (deselect), settle.  Note it raises CS
after the byte and never lowers it itself. -/
def GC9A01_SendData (data : Nat) : List Ev :=
  [Ev.gpio Pin.DC 1, Ev.delayUs 1, Ev.spi data, Ev.delayUs 1,
   Ev.gpio Pin.CS 1, Ev.delayUs 10]

/-- `GC9A01_Reset` (driver lines 133-148): CS low, 100 ms, RST low,
100 ms, RST high, 100 ms. -/
def GC9A01_Reset : List Ev :=
  [Ev.gpio Pin.CS 0, Ev.delayMs 100,
   Ev.gpio Pin.RST 0, Ev.delayMs 100,
   Ev.gpio Pin.RST 1, Ev.delayMs 100]

/-- `GC9A01_SetWindow` (driver lines 444-475).  Arguments are `uint16_t`.
`x0 & 0xFF` is `x0 % 256`; `(x1 - 1) & 0xFF` is computed in C on the
promoted value `x1 - 1`, whose low byte is `(x1 + 255) % 256` for every
`x1 < 2^16` (for `x1 = 0` this is `0xFF`).  No bounds check or clamp is
performed. -/
def GC9A01_SetWindow (x0 y0 x1 y1 : Nat) : List Ev :=
  GC9A01_SendCommand 0x2A ++
  GC9A01_SendData 0x00 ++
  GC9A01_SendData (x0 % 256) ++
  GC9A01_SendData 0x00 ++
  GC9A01_SendData ((x1 + 255) % 256) ++
  GC9A01_SendCommand 0x2B ++
  GC9A01_SendData 0x00 ++
  GC9A01_SendData (y0 % 256) ++
  GC9A01_SendData 0x00 ++
  GC9A01_SendData ((y1 + 255) % 256) ++
  GC9A01_SendCommand 0x2C

/-- Trace of the inner `row` loop of `GC9A01_FillRect` (driver lines
534-538) running `n` iterations: `n` consecutive byte pairs, the first
byte of every pair `a` (the color's high byte) and the second `b` (the
low byte). -/
def pixelPairRun (a b : Nat) : Nat → List Ev
  | 0 => []
  | n + 1 => Ev.spi a :: Ev.spi b :: pixelPairRun a b n

/-- Trace of the outer `col` loop of `GC9A01_FillRect` (driver lines
533-539): `w` repetitions of the inner row loop over `h` rows. -/
def fillCols (a b h : Nat) : Nat → List Ev
  | 0 => []
  | w + 1 => pixelPairRun a b h ++ fillCols a b h w

/-- `GC9A01_FillRect` (driver lines 493-548).  Guard, clamp of the
exclusive end coordinates to the panel size, empty-rectangle guard, then
window set-up, one switch to data mode, the column-major pixel double
loop, the `SPI1->STATR` busy-wait, and the single final CS deassert. -/
def GC9A01_FillRect (x0 y0 x1 y1 color : Nat) : List Ev :=
  if x0 ≥ LCD_WIDTH ∨ y0 ≥ LCD_HEIGHT then []
  else
    let x1c := if x1 > LCD_WIDTH then LCD_WIDTH else x1
    let y1c := if y1 > LCD_HEIGHT then LCD_HEIGHT else y1
    if x0 ≥ x1c ∨ y0 ≥ y1c then []
    else
      let color_msb := color / 256 % 256
      let color_lsb := color % 256
      let width := x1c - x0
      let height := y1c - y0
      GC9A01_SetWindow x0 y0 x1c y1c ++
      [Ev.gpio Pin.DC 1] ++
      fillCols color_msb color_lsb height width ++
      [Ev.waitSpiIdle, Ev.gpio Pin.CS 1]

/-- `GC9A01_FillScreen` (driver lines 557-563). -/
def GC9A01_FillScreen (color : Nat) : List Ev :=
  GC9A01_FillRect 0 0 LCD_WIDTH LCD_HEIGHT color

/-- One statement of the fixed initialization sequence in
`GC9A01_InitRegisters`: a `GC9A01_SendCommand` call, a `GC9A01_SendData`
call, or an `LCD_HAL_Delay_ms` call. -/
inductive InitStep
  | cmd (b : Nat)
  | dat (b : Nat)
  | dMs (n : Nat)
  deriving DecidableEq, Repr

/-- Trace of one initialization statement. -/
def runStep : InitStep → List Ev
  | InitStep.cmd b => GC9A01_SendCommand b
  | InitStep.dat b => GC9A01_SendData b
  | InitStep.dMs n => [Ev.delayMs n]

/-- Trace of a sequence of initialization statements. -/
def runScript (l : List InitStep) : List Ev := (l.map runStep).flatten

/-- The statement sequence of `GC9A01_InitRegisters` (driver lines
164-399), transcribed verbatim and in order. -/
def gc9a01InitScript : List InitStep :=
  [InitStep.cmd 0xEF,
   InitStep.cmd 0xEB, InitStep.dat 0x14,
   InitStep.cmd 0xFE,
   InitStep.cmd 0xEF,
   InitStep.cmd 0xEB, InitStep.dat 0x14,
   InitStep.cmd 0x84, InitStep.dat 0x40,
   InitStep.cmd 0x85, InitStep.dat 0xFF,
   InitStep.cmd 0x86, InitStep.dat 0xFF,
   InitStep.cmd 0x87, InitStep.dat 0xFF,
   InitStep.cmd 0x88, InitStep.dat 0x0A,
   InitStep.cmd 0x89, InitStep.dat 0x21,
   InitStep.cmd 0x8A, InitStep.dat 0x00,
   InitStep.cmd 0x8B, InitStep.dat 0x80,
   InitStep.cmd 0x8C, InitStep.dat 0x01,
   InitStep.cmd 0x8D, InitStep.dat 0x01,
   InitStep.cmd 0x8E, InitStep.dat 0xFF,
   InitStep.cmd 0x8F, InitStep.dat 0xFF,
   InitStep.cmd 0xB6, InitStep.dat 0x00, InitStep.dat 0x20,
   InitStep.cmd 0x36, InitStep.dat 0x08,
   InitStep.cmd 0x3A, InitStep.dat 0x05,
   InitStep.cmd 0x90, InitStep.dat 0x08, InitStep.dat 0x08,
   InitStep.dat 0x08, InitStep.dat 0x08,
   InitStep.cmd 0xBD, InitStep.dat 0x06,
   InitStep.cmd 0xBC, InitStep.dat 0x00,
   InitStep.cmd 0xFF, InitStep.dat 0x60, InitStep.dat 0x01, InitStep.dat 0x04,
   InitStep.cmd 0xC3, InitStep.dat 0x13,
   InitStep.cmd 0xC4, InitStep.dat 0x13,
   InitStep.cmd 0xC9, InitStep.dat 0x22,
   InitStep.cmd 0xBE, InitStep.dat 0x11,
   InitStep.cmd 0xE1, InitStep.dat 0x10, InitStep.dat 0x0E,
   InitStep.cmd 0xDF, InitStep.dat 0x21, InitStep.dat 0x0C, InitStep.dat 0x02,
   InitStep.cmd 0xF0, InitStep.dat 0x45, InitStep.dat 0x09, InitStep.dat 0x08,
   InitStep.dat 0x08, InitStep.dat 0x26, InitStep.dat 0x2A,
   InitStep.cmd 0xF1, InitStep.dat 0x43, InitStep.dat 0x70, InitStep.dat 0x72,
   InitStep.dat 0x36, InitStep.dat 0x37, InitStep.dat 0x6F,
   InitStep.cmd 0xF2, InitStep.dat 0x45, InitStep.dat 0x09, InitStep.dat 0x08,
   InitStep.dat 0x08, InitStep.dat 0x26, InitStep.dat 0x2A,
   InitStep.cmd 0xF3, InitStep.dat 0x43, InitStep.dat 0x70, InitStep.dat 0x72,
   InitStep.dat 0x36, InitStep.dat 0x37, InitStep.dat 0x6F,
   InitStep.cmd 0xED, InitStep.dat 0x1B, InitStep.dat 0x0B,
   InitStep.cmd 0xAE, InitStep.dat 0x77,
   InitStep.cmd 0xCD, InitStep.dat 0x63,
   InitStep.cmd 0x70, InitStep.dat 0x07, InitStep.dat 0x07, InitStep.dat 0x04,
   InitStep.dat 0x0E, InitStep.dat 0x0F, InitStep.dat 0x09, InitStep.dat 0x07,
   InitStep.dat 0x08, InitStep.dat 0x03,
   InitStep.cmd 0xE8, InitStep.dat 0x34,
   InitStep.cmd 0x62, InitStep.dat 0x18, InitStep.dat 0x0D, InitStep.dat 0x71,
   InitStep.dat 0xED, InitStep.dat 0x70, InitStep.dat 0x70, InitStep.dat 0x18,
   InitStep.dat 0x0F, InitStep.dat 0x71, InitStep.dat 0xEF, InitStep.dat 0x70,
   InitStep.dat 0x70,
   InitStep.cmd 0x63, InitStep.dat 0x18, InitStep.dat 0x11, InitStep.dat 0x71,
   InitStep.dat 0xF1, InitStep.dat 0x70, InitStep.dat 0x70, InitStep.dat 0x18,
   InitStep.dat 0x13, InitStep.dat 0x71, InitStep.dat 0xF3, InitStep.dat 0x70,
   InitStep.dat 0x70,
   InitStep.cmd 0x64, InitStep.dat 0x28, InitStep.dat 0x29, InitStep.dat 0xF1,
   InitStep.dat 0x01, InitStep.dat 0xF1, InitStep.dat 0x00, InitStep.dat 0x07,
   InitStep.cmd 0x66, InitStep.dat 0x3C, InitStep.dat 0x00, InitStep.dat 0xCD,
   InitStep.dat 0x67, InitStep.dat 0x45, InitStep.dat 0x45, InitStep.dat 0x10,
   InitStep.dat 0x00, InitStep.dat 0x00, InitStep.dat 0x00,
   InitStep.cmd 0x67, InitStep.dat 0x00, InitStep.dat 0x3C, InitStep.dat 0x00,
   InitStep.dat 0x00, InitStep.dat 0x00, InitStep.dat 0x01, InitStep.dat 0x54,
   InitStep.dat 0x10, InitStep.dat 0x32, InitStep.dat 0x98,
   InitStep.cmd 0x74, InitStep.dat 0x10, InitStep.dat 0x85, InitStep.dat 0x80,
   InitStep.dat 0x00, InitStep.dat 0x00, InitStep.dat 0x4E, InitStep.dat 0x00,
   InitStep.cmd 0x98, InitStep.dat 0x3E, InitStep.dat 0x07,
   InitStep.cmd 0x35,
   InitStep.cmd 0x21,
   InitStep.cmd 0x11, InitStep.dMs 120,
   InitStep.cmd 0x29, InitStep.dMs 20]

/-- `GC9A01_InitRegisters` (driver lines 164-399): replay of the fixed
initialization script. -/
def GC9A01_InitRegisters : List Ev := runScript gc9a01InitScript

/-- `GC9A01_Init` (driver lines 415-422): hardware reset followed by the
register initialization script. -/
def GC9A01_Init : List Ev := GC9A01_Reset ++ GC9A01_InitRegisters

/-- The levels of the chip-select and data/command lines. -/
structure LineState where
  cs : Nat
  dc : Nat
  deriving DecidableEq, Repr

/-- Line levels established by `LCD_HAL_GPIO_Init` (`lcd_hal.c` lines
37-40): CS high (deselected), DC low (command mode). -/
def initialLineState : LineState := { cs := 1, dc := 0 }

/-- Effect of one event on the tracked line levels. -/
def stepEv (s : LineState) : Ev → LineState
  | Ev.gpio Pin.CS v => { s with cs := v }
  | Ev.gpio Pin.DC v => { s with dc := v }
  | _ => s

/-- Line levels after a trace. -/
def runState (s : LineState) : List Ev → LineState
  | [] => s
  | e :: es => runState (stepEv s e) es

/-- `true` iff every byte of the trace is emitted while chip-select is
asserted (low), tracking the line levels from `s`. -/
def allBytesSelected (s : LineState) : List Ev → Bool
  | [] => true
  | e :: es =>
    (match e with
     | Ev.spi _ => s.cs == 0
     | _ => true) && allBytesSelected (stepEv s e) es

/-- `true` iff every byte emitted in command mode (data/command line low)
is emitted while chip-select is asserted (low). -/
def cmdBytesSelected (s : LineState) : List Ev → Bool
  | [] => true
  | e :: es =>
    (match e with
     | Ev.spi _ => s.dc == 1 || s.cs == 0
     | _ => true) && cmdBytesSelected (stepEv s e) es

/-- Number of chip-select deassertions (`CS` driven high) in a trace. -/
def csDeassertCount : List Ev → Nat
  | [] => 0
  | Ev.gpio Pin.CS 1 :: rest => 1 + csDeassertCount rest
  | _ :: rest => csDeassertCount rest

/-- Number of writes to the chip-select line (either level) in a trace. -/
def csWriteCount : List Ev → Nat
  | [] => 0
  | Ev.gpio Pin.CS _ :: rest => 1 + csWriteCount rest
  | _ :: rest => csWriteCount rest

/-- A call into the driver's public drawing interface (the `init` operation
is `GC9A01_Init`). -/
inductive DriverOp
  | init
  | setWindow (x0 y0 x1 y1 : Nat)
  | fillRect (x0 y0 x1 y1 c : Nat)
  | fillScreen (c : Nat)
  deriving DecidableEq, Repr

/-- Trace of one driver operation. -/
def runOp : DriverOp → List Ev
  | DriverOp.init => GC9A01_Init
  | DriverOp.setWindow x0 y0 x1 y1 => GC9A01_SetWindow x0 y0 x1 y1
  | DriverOp.fillRect x0 y0 x1 y1 c => GC9A01_FillRect x0 y0 x1 y1 c
  | DriverOp.fillScreen c => GC9A01_FillScreen c

/-- Trace of a sequence of driver operations. -/
def runOps (ops : List DriverOp) : List Ev := (ops.map runOp).flatten

/-! ## The transport layer's busy-waits (`lcd_hal.c`, lines 157-174)

`LCD_HAL_SPI_WriteByte` polls `SPI1->STATR` in two `while` loops guarded
by a post-decremented `uint32_t timeout` counter.  We model the register
as a stream `stat : Nat → Nat` giving the value returned by the `i`-th
read of `SPI1->STATR`, and embed the C post-decrement exactly: the test
`timeout--` yields the current value and then wraps `0` to `2^32 - 1`. -/

/-- `UINT32_MAX`, the value a `uint32_t` `0` wraps to after `--`. -/
def U32_MAX : Nat := 4294967295

/-- `while(!(SPI1->STATR & (1 << 1)) && timeout--) {}` — spin until the
TXE bit (bit 1) is set.  `i` is the index of the next status read; the
last argument is the current `timeout` value.  Returns the value of
`timeout` after the loop and the index of the next unread status. -/
def waitTXE (stat : Nat → Nat) (i : Nat) : Nat → Nat × Nat
  | 0 => if stat i &&& 2 ≠ 0 then (0, i + 1) else (U32_MAX, i + 1)
  | t + 1 => if stat i &&& 2 ≠ 0 then (t + 1, i + 1) else waitTXE stat (i + 1) t

/-- `while((SPI1->STATR & (1 << 7)) && timeout--) {}` — spin until the
BSY bit (bit 7) clears; same conventions as `waitTXE`. -/
def waitBSY (stat : Nat → Nat) (i : Nat) : Nat → Nat × Nat
  | 0 => if stat i &&& 128 ≠ 0 then (U32_MAX, i + 1) else (0, i + 1)
  | t + 1 => if stat i &&& 128 ≠ 0 then waitBSY stat (i + 1) t else (t + 1, i + 1)

/-- `LCD_HAL_SPI_WriteByte` (`lcd_hal.c` lines 157-174): wait for TXE with
a 100000-iteration budget; `if (timeout == 0) return;`; write `value` to
`SPI1->DATAR`; wait for BSY to clear with a fresh 100000-iteration budget.
Returns the value written to the data register, if any, and the total
number of status-register reads performed. -/
def LCD_HAL_SPI_WriteByte (stat : Nat → Nat) (value : Nat) : Option Nat × Nat :=
  let r1 := waitTXE stat 0 100000
  if r1.1 = 0 then (none, r1.2)
  else
    let r2 := waitBSY stat r1.2 100000
    (some value, r2.2)

/-! ## Helper lemmas -/

theorem pixelPairRun_length (a b : Nat) : ∀ n, (pixelPairRun a b n).length = 2 * n
  | 0 => rfl
  | n + 1 => by simp [pixelPairRun, pixelPairRun_length a b n]; omega

theorem spiBytes_append (l₁ l₂ : List Ev) :
    spiBytes (l₁ ++ l₂) = spiBytes l₁ ++ spiBytes l₂ := by
  induction l₁ with
  | nil => rfl
  | cons e rest ih => cases e <;> simp [spiBytes, ih]

theorem spiBytes_pixelPairRun_length (a b : Nat) :
    ∀ n, (spiBytes (pixelPairRun a b n)).length = 2 * n
  | 0 => rfl
  | n + 1 => by
      simp [pixelPairRun, spiBytes, spiBytes_pixelPairRun_length a b n]; omega

theorem pixelPairRun_add (a b m n : Nat) :
    pixelPairRun a b (m + n) = pixelPairRun a b m ++ pixelPairRun a b n := by
  induction m with
  | zero => simp [pixelPairRun]
  | succ m ih => rw [Nat.succ_add]; simp [pixelPairRun, ih]

theorem fillCols_eq_pixelPairRun (a b h : Nat) :
    ∀ w, fillCols a b h w = pixelPairRun a b (w * h)
  | 0 => by simp [fillCols, pixelPairRun]
  | w + 1 => by
      rw [fillCols, fillCols_eq_pixelPairRun a b h w, Nat.succ_mul, Nat.add_comm,
        pixelPairRun_add]

/-- Shared decomposition of `GC9A01_FillRect` for an in-bounds, non-empty
rectangle: the addressing commands of `GC9A01_SetWindow`, one switch to
data mode, the pixel byte run, the busy-wait and the single final
chip-select deassertion. -/
theorem fillRect_decomp (x0 y0 x1 y1 c : Nat)
    (hx : x0 < x1) (hx1 : x1 ≤ 240) (hy : y0 < y1) (hy1 : y1 ≤ 240) :
    GC9A01_FillRect x0 y0 x1 y1 c =
      GC9A01_SetWindow x0 y0 x1 y1 ++ [Ev.gpio Pin.DC 1] ++
      pixelPairRun (c / 256 % 256) (c % 256) ((x1 - x0) * (y1 - y0)) ++
      [Ev.waitSpiIdle, Ev.gpio Pin.CS 1] := by
  have h1 : ¬(x0 ≥ LCD_WIDTH ∨ y0 ≥ LCD_HEIGHT) := by
    simp only [LCD_WIDTH, LCD_HEIGHT]; omega
  have h2 : ¬(x1 > LCD_WIDTH) := by simp only [LCD_WIDTH]; omega
  have h3 : ¬(y1 > LCD_HEIGHT) := by simp only [LCD_HEIGHT]; omega
  simp only [GC9A01_FillRect, if_neg h1, if_neg h2, if_neg h3]
  rw [if_neg (by omega : ¬(x0 ≥ x1 ∨ y0 ≥ y1))]
  rw [fillCols_eq_pixelPairRun, Nat.mul_comm]

/-! ## Claim theorems -/

/-- C1: for every rectangle `(x0,y0,x1,y1)` with `0 ≤ x0 < x1 ≤ 240` and
`0 ≤ y0 < y1 ≤ 240` and every 16-bit color, `GC9A01_FillRect` emits,
after the addressing commands of `GC9A01_SetWindow` (and the switch to
data mode), exactly the run `pixelPairRun` of `(x1-x0)*(y1-y0)`
consecutive byte pairs whose first byte is `(color >> 8) & 0xFF` and
whose second byte is `color & 0xFF`; that run consists of
`2*(x1-x0)*(y1-y0)` events, all of them data bytes. -/
theorem gc9a01_fillRect_pixel_stream (x0 y0 x1 y1 c : Nat)
    (hx : x0 < x1) (hx1 : x1 ≤ 240) (hy : y0 < y1) (hy1 : y1 ≤ 240)
    (hc : c < 65536) :
    GC9A01_FillRect x0 y0 x1 y1 c =
      GC9A01_SetWindow x0 y0 x1 y1 ++ [Ev.gpio Pin.DC 1] ++
      pixelPairRun (c / 256 % 256) (c % 256) ((x1 - x0) * (y1 - y0)) ++
      [Ev.waitSpiIdle, Ev.gpio Pin.CS 1] ∧
    (spiBytes (pixelPairRun (c / 256 % 256) (c % 256)
        ((x1 - x0) * (y1 - y0)))).length = 2 * ((x1 - x0) * (y1 - y0)) ∧
    (pixelPairRun (c / 256 % 256) (c % 256)
        ((x1 - x0) * (y1 - y0))).length = 2 * ((x1 - x0) * (y1 - y0)) :=
  ⟨fillRect_decomp x0 y0 x1 y1 c hx hx1 hy hy1,
   spiBytes_pixelPairRun_length _ _ _,
   pixelPairRun_length _ _ _⟩

/-- C1 witness: the rectangle `(0,0,2,1)` with color `0xF800`. -/
theorem gc9a01_fillRect_pixel_stream_witness :
    (0 < 2 ∧ 2 ≤ 240 ∧ 0 < 1 ∧ 1 ≤ 240 ∧ 63488 < 65536) ∧
    (GC9A01_FillRect 0 0 2 1 63488 =
      GC9A01_SetWindow 0 0 2 1 ++ [Ev.gpio Pin.DC 1] ++
      pixelPairRun (63488 / 256 % 256) (63488 % 256) ((2 - 0) * (1 - 0)) ++
      [Ev.waitSpiIdle, Ev.gpio Pin.CS 1] ∧
    (spiBytes (pixelPairRun (63488 / 256 % 256) (63488 % 256)
        ((2 - 0) * (1 - 0)))).length = 2 * ((2 - 0) * (1 - 0)) ∧
    (pixelPairRun (63488 / 256 % 256) (63488 % 256)
        ((2 - 0) * (1 - 0))).length = 2 * ((2 - 0) * (1 - 0))) :=
  ⟨⟨by decide, by decide, by decide, by decide, by decide⟩,
   gc9a01_fillRect_pixel_stream 0 0 2 1 63488
     (by decide) (by decide) (by decide) (by decide) (by decide)⟩

/-- The byte sequence `GC9A01_SetWindow` puts on the bus, for arbitrary
arguments. -/
theorem spiBytes_setWindow (x0 y0 x1 y1 : Nat) :
    spiBytes (GC9A01_SetWindow x0 y0 x1 y1) =
      [0x2A, 0x00, x0 % 256, 0x00, (x1 + 255) % 256,
       0x2B, 0x00, y0 % 256, 0x00, (y1 + 255) % 256, 0x2C] := by
  simp [GC9A01_SetWindow, GC9A01_SendCommand, GC9A01_SendData,
    spiBytes_append, spiBytes]

/-- C4: `GC9A01_SetWindow 0 0 240 240` emits the column-address-set
command `0x2A` with data bytes `[0x00,0x00,0x00,0xEF]` and the
row-address-set command `0x2B` with data bytes `[0x00,0x00,0x00,0xEF]`
(followed by the memory-write command `0x2C`); in general, for in-range
coordinates the end bytes sent are `x1 - 1` and `y1 - 1`. -/
theorem gc9a01_setWindow_encoding :
    spiBytes (GC9A01_SetWindow 0 0 240 240) =
      [0x2A, 0x00, 0x00, 0x00, 0xEF, 0x2B, 0x00, 0x00, 0x00, 0xEF, 0x2C] ∧
    ∀ x0 y0 x1 y1 : Nat, x0 < 240 → y0 < 240 →
      0 < x1 → x1 ≤ 240 → 0 < y1 → y1 ≤ 240 →
      spiBytes (GC9A01_SetWindow x0 y0 x1 y1) =
        [0x2A, 0x00, x0, 0x00, x1 - 1, 0x2B, 0x00, y0, 0x00, y1 - 1, 0x2C] := by
  refine ⟨by decide, ?_⟩
  intro x0 y0 x1 y1 hx0 hy0 hx1p hx1 hy1p hy1
  rw [spiBytes_setWindow]
  have e1 : x0 % 256 = x0 := Nat.mod_eq_of_lt (by omega)
  have e2 : y0 % 256 = y0 := Nat.mod_eq_of_lt (by omega)
  have e3 : (x1 + 255) % 256 = x1 - 1 := by omega
  have e4 : (y1 + 255) % 256 = y1 - 1 := by omega
  rw [e1, e2, e3, e4]

/-- C4 witness: the window `(5,7,100,200)`. -/
theorem gc9a01_setWindow_encoding_witness :
    (5 < 240 ∧ 7 < 240 ∧ 0 < 100 ∧ 100 ≤ 240 ∧ 0 < 200 ∧ 200 ≤ 240) ∧
    spiBytes (GC9A01_SetWindow 5 7 100 200) =
      [0x2A, 0x00, 5, 0x00, 100 - 1, 0x2B, 0x00, 7, 0x00, 200 - 1, 0x2C] :=
  ⟨⟨by decide, by decide, by decide, by decide, by decide, by decide⟩,
   gc9a01_setWindow_encoding.2 5 7 100 200
     (by decide) (by decide) (by decide) (by decide) (by decide) (by decide)⟩

/-- C9: `GC9A01_SetWindow` performs no bounds check or clamp: for all
`uint16` arguments it emits start bytes `x0 & 0xFF` and `y0 & 0xFF` and
end bytes `(x1 - 1) & 0xFF` and `(y1 - 1) & 0xFF` computed with wrapping
16-bit subtraction (`(x1 + 65535) % 65536 % 256`); in particular with
`x1 = 0` and `y1 = 0` the end-address bytes are `0xFF`. -/
theorem gc9a01_setWindow_no_clamping :
    (∀ x0 y0 x1 y1 : Nat,
      x0 < 65536 → y0 < 65536 → x1 < 65536 → y1 < 65536 →
      spiBytes (GC9A01_SetWindow x0 y0 x1 y1) =
        [0x2A, 0x00, x0 % 256, 0x00, (x1 + 65535) % 65536 % 256,
         0x2B, 0x00, y0 % 256, 0x00, (y1 + 65535) % 65536 % 256, 0x2C]) ∧
    spiBytes (GC9A01_SetWindow 0 0 0 0) =
      [0x2A, 0x00, 0x00, 0x00, 0xFF, 0x2B, 0x00, 0x00, 0x00, 0xFF, 0x2C] := by
  refine ⟨?_, by decide⟩
  intro x0 y0 x1 y1 hx0 hy0 hx1 hy1
  rw [spiBytes_setWindow]
  have e3 : (x1 + 255) % 256 = (x1 + 65535) % 65536 % 256 := by omega
  have e4 : (y1 + 255) % 256 = (y1 + 65535) % 65536 % 256 := by omega
  rw [e3, e4]

/-- C9 witness: the out-of-range window `(300,500,0,241)`. -/
theorem gc9a01_setWindow_no_clamping_witness :
    (300 < 65536 ∧ 500 < 65536 ∧ 0 < 65536 ∧ 241 < 65536) ∧
    spiBytes (GC9A01_SetWindow 300 500 0 241) =
      [0x2A, 0x00, 300 % 256, 0x00, (0 + 65535) % 65536 % 256,
       0x2B, 0x00, 500 % 256, 0x00, (241 + 65535) % 65536 % 256, 0x2C] :=
  ⟨⟨by decide, by decide, by decide, by decide⟩,
   gc9a01_setWindow_no_clamping.1 300 500 0 241
     (by decide) (by decide) (by decide) (by decide)⟩

/-- C5: `GC9A01_FillRect 50 50 50 80 c` and `GC9A01_FillRect 10 300 20
310 c` emit no event at all; in general, whenever the rectangle is empty
after clamping (`x0 ≥ min x1 240`, `y0 ≥ min y1 240`, `x0 ≥ 240` or
`y0 ≥ 240`), `GC9A01_FillRect` returns immediately with an empty trace —
a no-op, not an error. -/
theorem gc9a01_fillRect_empty_noop :
    (∀ c, GC9A01_FillRect 50 50 50 80 c = [] ∧
          GC9A01_FillRect 10 300 20 310 c = []) ∧
    ∀ x0 y0 x1 y1 c : Nat,
      (240 ≤ x0 ∨ 240 ≤ y0 ∨ min x1 240 ≤ x0 ∨ min y1 240 ≤ y0) →
      GC9A01_FillRect x0 y0 x1 y1 c = [] := by
  refine ⟨fun c => ⟨rfl, rfl⟩, ?_⟩
  intro x0 y0 x1 y1 c h
  simp only [GC9A01_FillRect, LCD_WIDTH, LCD_HEIGHT]
  split
  · rfl
  · rename_i hin
    rw [if_pos]
    rcases h with h | h | h | h
    · exact absurd (Or.inl h) hin
    · exact absurd (Or.inr h) hin
    · left; split <;> omega
    · right; split <;> omega

/-- C5 witness: the empty rectangle `(0,0,0,5)`. -/
theorem gc9a01_fillRect_empty_noop_witness :
    (240 ≤ 0 ∨ 240 ≤ 0 ∨ min 0 240 ≤ 0 ∨ min 5 240 ≤ 0) ∧
    GC9A01_FillRect 0 0 0 5 7 = [] :=
  ⟨by decide,
   gc9a01_fillRect_empty_noop.2 0 0 0 5 7 (by decide)⟩

/-- C6: for every `x0 < 240`, `y0 < 240` and every color,
`GC9A01_FillRect x0 y0 300 300 c` produces a trace identical, event for
event, to `GC9A01_FillRect x0 y0 240 240 c`: both clamp the end
coordinates to the 240×240 panel. -/
theorem gc9a01_fillRect_clamp_equiv (x0 y0 c : Nat)
    (hx : x0 < 240) (hy : y0 < 240) :
    GC9A01_FillRect x0 y0 300 300 c = GC9A01_FillRect x0 y0 240 240 c := rfl

/-- C6 witness: `x0 = 10`, `y0 = 10`, color `7`. -/
theorem gc9a01_fillRect_clamp_equiv_witness :
    (10 < 240 ∧ 10 < 240) ∧
    GC9A01_FillRect 10 10 300 300 7 = GC9A01_FillRect 10 10 240 240 7 :=
  ⟨⟨by decide, by decide⟩,
   gc9a01_fillRect_clamp_equiv 10 10 7 (by decide) (by decide)⟩

set_option maxRecDepth 10000 in
/-- C10: when `GC9A01_Init` returns, the chip-select line is still
asserted (low): the final display-on command goes through
`GC9A01_SendCommand`, which drives CS low and never raises it, and no
later step of the initialization raises it. -/
theorem gc9a01_init_leaves_cs_asserted :
    (runState initialLineState GC9A01_Init).cs = 0 := by decide

/-- The suffix of a trace after the first event driving the reset line
low. -/
def dropThroughRstLow : List Ev → List Ev
  | [] => []
  | Ev.gpio Pin.RST 0 :: rest => rest
  | _ :: rest => dropThroughRstLow rest

/-- The suffix of a trace after the first event driving the reset line
high. -/
def dropThroughRstHigh : List Ev → List Ev
  | [] => []
  | Ev.gpio Pin.RST 1 :: rest => rest
  | _ :: rest => dropThroughRstHigh rest

/-- Millisecond delay accumulated before the reset line first goes
high. -/
def msUntilRstHigh : List Ev → Nat
  | [] => 0
  | Ev.gpio Pin.RST 1 :: _ => 0
  | Ev.delayMs n :: rest => n + msUntilRstHigh rest
  | _ :: rest => msUntilRstHigh rest

/-- Millisecond delay accumulated before the first byte is put on the
bus. -/
def msUntilFirstSpi : List Ev → Nat
  | [] => 0
  | Ev.spi _ :: _ => 0
  | Ev.delayMs n :: rest => n + msUntilFirstSpi rest
  | _ :: rest => msUntilFirstSpi rest

/-- C3 evaluated on the code: in `GC9A01_Init` the reset line is held low
for 100 ms (so the claimed ≥ 10 ms hold does hold), but between releasing
the reset line and the first command byte only 100 ms of millisecond
delay elapse (plus two 1 µs settle delays), and `100 < 120`: the
mandatory ≥ 120 ms post-release hold the claim states — and the comment
of `GC9A01_Reset` itself promises ("wait at least 120ms for display to
stabilize") — is not met by the `LCD_HAL_Delay_ms(100)` the code
performs. -/
theorem gc9a01_reset_release_delay :
    msUntilRstHigh (dropThroughRstLow GC9A01_Init) = 100 ∧
    msUntilFirstSpi (dropThroughRstHigh GC9A01_Init) = 100 ∧
    msUntilFirstSpi (dropThroughRstHigh GC9A01_Init) < 120 :=
  ⟨by decide, by decide, by decide⟩

theorem runScript_append (a b : List InitStep) :
    runScript (a ++ b) = runScript a ++ runScript b := by
  simp [runScript]

/-- C7: `GC9A01_Init` is exactly `GC9A01_Reset` followed by the replay of
the fixed initialization script, and the script's trace ends with the
sleep-out command `0x11`, a delay of at least 120 ms, the display-on
command `0x29` and a delay of at least 20 ms; the last two bytes the
script puts on the bus are `0x11` and `0x29`, so no further command byte
follows display-on. -/
theorem gc9a01_init_structure :
    GC9A01_Init = GC9A01_Reset ++ GC9A01_InitRegisters ∧
    (∃ d1 d2 p, 120 ≤ d1 ∧ 20 ≤ d2 ∧
      GC9A01_InitRegisters =
        p ++ (GC9A01_SendCommand 0x11 ++ [Ev.delayMs d1] ++
              GC9A01_SendCommand 0x29 ++ [Ev.delayMs d2])) ∧
    ∃ bs, spiBytes GC9A01_InitRegisters = bs ++ [0x11, 0x29] := by
  have hsplit : gc9a01InitScript =
      gc9a01InitScript.take 182 ++
      [InitStep.cmd 0x11, InitStep.dMs 120,
       InitStep.cmd 0x29, InitStep.dMs 20] := by rfl
  have h2 : GC9A01_InitRegisters =
      runScript (gc9a01InitScript.take 182) ++
      runScript [InitStep.cmd 0x11, InitStep.dMs 120,
                 InitStep.cmd 0x29, InitStep.dMs 20] := by
    rw [← runScript_append, ← hsplit]; rfl
  have h3 : runScript [InitStep.cmd 0x11, InitStep.dMs 120,
                       InitStep.cmd 0x29, InitStep.dMs 20] =
      GC9A01_SendCommand 0x11 ++ [Ev.delayMs 120] ++
      GC9A01_SendCommand 0x29 ++ [Ev.delayMs 20] := by decide
  have h4 : spiBytes (runScript [InitStep.cmd 0x11, InitStep.dMs 120,
                                 InitStep.cmd 0x29, InitStep.dMs 20]) =
      [0x11, 0x29] := by decide
  refine ⟨rfl,
    ⟨120, 20, runScript (gc9a01InitScript.take 182),
      le_refl 120, le_refl 20, by rw [h2, h3]⟩,
    ⟨spiBytes (runScript (gc9a01InitScript.take 182)), ?_⟩⟩
  rw [h2, spiBytes_append, h4]

theorem waitTXE_reads_le (stat : Nat → Nat) :
    ∀ t i, (waitTXE stat i t).2 ≤ i + t + 1
  | 0, i => by simp only [waitTXE]; split <;> simp
  | t + 1, i => by
      simp only [waitTXE]; split
      · simp
      · exact le_trans (waitTXE_reads_le stat t (i + 1)) (by omega)

theorem waitBSY_reads_le (stat : Nat → Nat) :
    ∀ t i, (waitBSY stat i t).2 ≤ i + t + 1
  | 0, i => by simp only [waitBSY]; split <;> simp
  | t + 1, i => by
      simp only [waitBSY]; split
      · exact le_trans (waitBSY_reads_le stat t (i + 1)) (by omega)
      · simp

/-- With the status register stuck at `0` the TXE wait decrements its
whole budget and the post-decrement wraps the counter to `UINT32_MAX`. -/
theorem waitTXE_stuck : ∀ t i, waitTXE (fun _ => 0) i t = (U32_MAX, i + t + 1)
  | 0, i => by simp [waitTXE]
  | t + 1, i => by
      simp only [waitTXE]
      rw [if_neg (by simp)]
      rw [waitTXE_stuck t (i + 1)]
      simp; omega

/-- C8 evaluated on the code: both busy-waits of `LCD_HAL_SPI_WriteByte`
are bounded — at most `200002` status reads happen for every possible
sequence of status-register values, so the function always returns — but
on a genuine timeout the operation is NOT abandoned: with the status
register stuck at `0` (transmit-ready never seen) the TXE loop exhausts
its 100000-iteration budget, the post-decremented `timeout` wraps to
`0xFFFFFFFF`, the `if (timeout == 0) return;` guard is skipped, and the
byte is written to the data register anyway. -/
theorem lcd_hal_spi_writeByte_timeout_behavior :
    (∀ stat value, (LCD_HAL_SPI_WriteByte stat value).2 ≤ 200002) ∧
    (LCD_HAL_SPI_WriteByte (fun _ => 0) 0x5A).1 = some 0x5A := by
  constructor
  · intro stat value
    simp only [LCD_HAL_SPI_WriteByte]
    have h1 := waitTXE_reads_le stat 100000 0
    have h2 := waitBSY_reads_le stat 100000 (waitTXE stat 0 100000).2
    split <;> simp <;> omega
  · simp only [LCD_HAL_SPI_WriteByte, waitTXE_stuck]
    rw [if_neg (by simp [U32_MAX])]

theorem runState_append (s : LineState) (a b : List Ev) :
    runState s (a ++ b) = runState (runState s a) b := by
  induction a generalizing s with
  | nil => rfl
  | cons e rest ih => simp [runState, ih]

theorem cmdBytesSelected_append (s : LineState) (a b : List Ev) :
    cmdBytesSelected s (a ++ b) =
      (cmdBytesSelected s a && cmdBytesSelected (runState s a) b) := by
  induction a generalizing s with
  | nil => rfl
  | cons e rest ih =>
      simp only [List.cons_append, cmdBytesSelected, runState,
        List.append_eq, ih, Bool.and_assoc]

theorem runState_sendCommand (s : LineState) (c : Nat) :
    runState s (GC9A01_SendCommand c) = { cs := 0, dc := 0 } := rfl

theorem runState_sendData (s : LineState) (d : Nat) :
    runState s (GC9A01_SendData d) = { cs := 1, dc := 1 } := rfl

theorem cmdBytesSelected_sendCommand (s : LineState) (c : Nat) :
    cmdBytesSelected s (GC9A01_SendCommand c) = true := rfl

theorem cmdBytesSelected_sendData (s : LineState) (d : Nat) :
    cmdBytesSelected s (GC9A01_SendData d) = true := rfl

theorem runState_pixelPairRun (s : LineState) (a b : Nat) :
    ∀ n, runState s (pixelPairRun a b n) = s
  | 0 => rfl
  | n + 1 => by
      simp [pixelPairRun, runState, stepEv, runState_pixelPairRun s a b n]

theorem cmdBytesSelected_pixelPairRun (a b c : Nat) :
    ∀ n, cmdBytesSelected { cs := c, dc := 1 } (pixelPairRun a b n) = true
  | 0 => rfl
  | n + 1 => by
      simp [pixelPairRun, cmdBytesSelected, stepEv,
        cmdBytesSelected_pixelPairRun a b c n]

theorem cmdBytesSelected_setWindow (s : LineState) (x0 y0 x1 y1 : Nat) :
    cmdBytesSelected s (GC9A01_SetWindow x0 y0 x1 y1) = true := by
  simp [GC9A01_SetWindow, cmdBytesSelected_append, runState_append,
    runState_sendCommand, runState_sendData,
    cmdBytesSelected_sendCommand, cmdBytesSelected_sendData]

theorem runState_setWindow (s : LineState) (x0 y0 x1 y1 : Nat) :
    runState s (GC9A01_SetWindow x0 y0 x1 y1) = { cs := 0, dc := 0 } := by
  simp [GC9A01_SetWindow, runState_append, runState_sendCommand,
    runState_sendData]

set_option maxRecDepth 4000 in
theorem cmdBytesSelected_fillRect (s : LineState) (x0 y0 x1 y1 c : Nat) :
    cmdBytesSelected s (GC9A01_FillRect x0 y0 x1 y1 c) = true := by
  by_cases h1 : x0 ≥ LCD_WIDTH ∨ y0 ≥ LCD_HEIGHT
  · simp only [GC9A01_FillRect, if_pos h1]; rfl
  · by_cases h2 : x0 ≥ (if x1 > LCD_WIDTH then LCD_WIDTH else x1) ∨
        y0 ≥ (if y1 > LCD_HEIGHT then LCD_HEIGHT else y1)
    · simp only [GC9A01_FillRect, if_neg h1, if_pos h2]
      rfl
    · simp only [GC9A01_FillRect, if_neg h1, if_neg h2]
      rw [fillCols_eq_pixelPairRun]
      simp [cmdBytesSelected_append, runState_append, runState_setWindow,
        cmdBytesSelected_setWindow, cmdBytesSelected, stepEv,
        cmdBytesSelected_pixelPairRun, runState_pixelPairRun]

theorem cmdBytesSelected_runScript :
    ∀ (l : List InitStep) (s : LineState),
      cmdBytesSelected s (runScript l) = true
  | [], _ => rfl
  | step :: rest, s => by
      rw [show runScript (step :: rest) = runStep step ++ runScript rest
          from rfl,
        cmdBytesSelected_append]
      cases step <;>
        simp [runStep, cmdBytesSelected_sendCommand, cmdBytesSelected_sendData,
          runState_sendCommand, runState_sendData, cmdBytesSelected, stepEv,
          cmdBytesSelected_runScript rest]

theorem cmdBytesSelected_init (s : LineState) :
    cmdBytesSelected s GC9A01_Init = true := by
  rw [show GC9A01_Init = GC9A01_Reset ++ GC9A01_InitRegisters from rfl,
    cmdBytesSelected_append,
    show cmdBytesSelected s GC9A01_Reset = true from rfl,
    show GC9A01_InitRegisters = runScript gc9a01InitScript from rfl,
    cmdBytesSelected_runScript]
  rfl

theorem cmdBytesSelected_runOps :
    ∀ (ops : List DriverOp) (s : LineState),
      cmdBytesSelected s (runOps ops) = true
  | [], _ => rfl
  | op :: rest, s => by
      rw [show runOps (op :: rest) = runOp op ++ runOps rest from rfl,
        cmdBytesSelected_append]
      have hop : ∀ s' : LineState, cmdBytesSelected s' (runOp op) = true := by
        intro s'
        cases op <;>
          simp [runOp, cmdBytesSelected_init, cmdBytesSelected_setWindow,
            cmdBytesSelected_fillRect, GC9A01_FillScreen]
      rw [hop s, cmdBytesSelected_runOps rest]
      rfl

theorem csWriteCount_pixelPairRun (a b : Nat) :
    ∀ n, csWriteCount (pixelPairRun a b n) = 0
  | 0 => rfl
  | n + 1 => by simp [pixelPairRun, csWriteCount, csWriteCount_pixelPairRun a b n]

set_option maxRecDepth 2000 in
/-- C2 counterexample: the claim requires chip-select to stay asserted
continuously from each command byte through its following data run, and
to be deasserted exactly once per closed command-plus-data transaction —
which entails that every emitted byte goes out while chip-select is low.
The single driver operation `setWindow 0 0 240 240` already violates
both: its second parameter byte is emitted with chip-select deasserted
(`GC9A01_SendData` raises CS after every single parameter byte and never
re-asserts it), and its two closed transactions (column-address and
row-address, each one command plus four parameter bytes) contain eight
CS deassertions instead of two. -/
theorem gc9a01_framing_counterexample :
    allBytesSelected initialLineState
        (runOps [DriverOp.setWindow 0 0 240 240]) = false ∧
    csDeassertCount (runOps [DriverOp.setWindow 0 0 240 240]) = 8 :=
  ⟨by decide, by decide⟩

/-- C2 amended: (1) every byte emitted in command mode — every command
byte — is emitted with chip-select asserted, over every sequence of
driver operations; (2) each parameter byte is sent by `GC9A01_SendData`,
which selects data mode before the byte and deasserts chip-select right
after it, so chip-select does not stay asserted across a multi-byte
parameter run; (3) in `GC9A01_FillRect`'s pixel burst, chip-select is
asserted when the burst begins (it is low after `GC9A01_SetWindow`'s
memory-write command), no event of the burst touches chip-select, and
the transaction is closed by exactly one final deassertion after the
busy-wait. -/
theorem gc9a01_framing_amended :
    (∀ ops : List DriverOp,
      cmdBytesSelected initialLineState (runOps ops) = true) ∧
    (∀ d, GC9A01_SendData d =
      [Ev.gpio Pin.DC 1, Ev.delayUs 1, Ev.spi d, Ev.delayUs 1,
       Ev.gpio Pin.CS 1, Ev.delayUs 10]) ∧
    ∀ x0 y0 x1 y1 c : Nat, x0 < x1 → x1 ≤ 240 → y0 < y1 → y1 ≤ 240 →
      GC9A01_FillRect x0 y0 x1 y1 c =
        GC9A01_SetWindow x0 y0 x1 y1 ++ [Ev.gpio Pin.DC 1] ++
        pixelPairRun (c / 256 % 256) (c % 256) ((x1 - x0) * (y1 - y0)) ++
        [Ev.waitSpiIdle, Ev.gpio Pin.CS 1] ∧
      (runState initialLineState (GC9A01_SetWindow x0 y0 x1 y1)).cs = 0 ∧
      csWriteCount (pixelPairRun (c / 256 % 256) (c % 256)
        ((x1 - x0) * (y1 - y0))) = 0 := by
  refine ⟨fun ops => cmdBytesSelected_runOps ops initialLineState,
    fun d => rfl, ?_⟩
  intro x0 y0 x1 y1 c hx hx1 hy hy1
  refine ⟨fillRect_decomp x0 y0 x1 y1 c hx hx1 hy hy1, ?_, ?_⟩
  · rw [runState_setWindow]
  · exact csWriteCount_pixelPairRun _ _ _

/-- C2 amended witness: the rectangle `(0,0,1,1)` with color `0`. -/
theorem gc9a01_framing_amended_witness :
    (0 < 1 ∧ 1 ≤ 240 ∧ 0 < 1 ∧ 1 ≤ 240) ∧
    (GC9A01_FillRect 0 0 1 1 0 =
        GC9A01_SetWindow 0 0 1 1 ++ [Ev.gpio Pin.DC 1] ++
        pixelPairRun (0 / 256 % 256) (0 % 256) ((1 - 0) * (1 - 0)) ++
        [Ev.waitSpiIdle, Ev.gpio Pin.CS 1] ∧
      (runState initialLineState (GC9A01_SetWindow 0 0 1 1)).cs = 0 ∧
      csWriteCount (pixelPairRun (0 / 256 % 256) (0 % 256)
        ((1 - 0) * (1 - 0))) = 0) :=
  ⟨⟨by decide, by decide, by decide, by decide⟩,
   gc9a01_framing_amended.2.2 0 0 1 1 0
     (by decide) (by decide) (by decide) (by decide)⟩
